import Mathlib

/- Shallow embedding of the mysql-dto-generator repository.
   Sources: src/mysql-info.ts (catalog row shapes, SQL text of the catalog
   queries, the ordered column type pattern table) and the generator class in
   src/index.ts (MySqlDtoGenerator: generate, _generateCommonTypes,
   _generateSchema, _generateTableModels, _generateColumnDefinition). -/

/- Regular expression fragments used by the pattern table. Every source regex in
   MySqlColumnTypePatterns is a sequence of literal text, digit runs and
   dot-plus wildcards; matching mirrors RegExp.test with the i flag:
   case-insensitive and unanchored. -/
inductive Tok where
  | lit (s : String)
  | digits
  | anyPlus
deriving DecidableEq

/- Tries to remove the literal pattern chars from the front of the input,
   returning the remaining input on success. -/
def stripLit : List Char → List Char → Option (List Char)
  | [], cs => some cs
  | _ :: _, [] => none
  | p :: ps, c :: cs => if p = c then stripLit ps cs else none

/- Backtracking matcher for a token sequence against a prefix of the input.
   Fuel-indexed to stay structurally recursive; every step removes a token or
   consumes an input char, so tokens.length + input.length + 1 fuel is never
   exhausted (matchTokensF_stable below). A digit run or wildcard consumes one
   char and either hands over to the rest of the tokens or keeps consuming. -/
def matchTokensF : Nat → List Tok → List Char → Bool
  | 0, _, _ => false
  | _ + 1, [], _ => true
  | f + 1, Tok.lit s :: ts, cs =>
    match stripLit s.toList cs with
    | some rest => matchTokensF f ts rest
    | none => false
  | f + 1, Tok.digits :: ts, cs =>
    match cs with
    | [] => false
    | c :: rest => c.isDigit && (matchTokensF f ts rest || matchTokensF f (Tok.digits :: ts) rest)
  | f + 1, Tok.anyPlus :: ts, cs =>
    match cs with
    | [] => false
    | c :: rest => (c != '\n') && (matchTokensF f ts rest || matchTokensF f (Tok.anyPlus :: ts) rest)

def matchTokens (ts : List Tok) (cs : List Char) : Bool :=
  matchTokensF (ts.length + cs.length + 1) ts cs

/- Unanchored search: the token sequence may match starting at any position. -/
def searchTokens (ts : List Tok) : List Char → Bool
  | [] => matchTokens ts []
  | c :: cs => matchTokens ts (c :: cs) || searchTokens ts cs

/- RegExp.test with the i flag: lower-case the input (the pattern literals in
   the source are already lower case) and search unanchored. -/
def reTest (ts : List Tok) (s : String) : Bool :=
  searchTokens ts (s.toList.map Char.toLower)

/- One entry of the MySqlColumnTypePatterns array from src/mysql-info.ts:
   a target TypeScript type name and a regex. -/
structure ColumnTypePattern where
  ts : String
  re : List Tok
deriving DecidableEq

/- The ordered pattern table, entry for entry from src/mysql-info.ts. -/
def MySqlColumnTypePatterns : List ColumnTypePattern := [
  ⟨"number", [Tok.lit "bigint"]⟩,
  ⟨"number", [Tok.lit "bigint unsigned"]⟩,
  ⟨"any", [Tok.lit "binary(", Tok.digits, Tok.lit ")"]⟩,
  ⟨"any", [Tok.lit "blob"]⟩,
  ⟨"string", [Tok.lit "char(", Tok.digits, Tok.lit ")"]⟩,
  ⟨"string", [Tok.lit "datetime"]⟩,
  ⟨"number", [Tok.lit "decimal(", Tok.digits, Tok.lit ",", Tok.digits, Tok.lit ")"]⟩,
  ⟨"number", [Tok.lit "decimal(", Tok.digits, Tok.lit ",", Tok.digits, Tok.lit ") unsigned"]⟩,
  ⟨"number", [Tok.lit "double"]⟩,
  ⟨"number", [Tok.lit "double(", Tok.digits, Tok.lit ",", Tok.digits, Tok.lit ")"]⟩,
  ⟨"string", [Tok.lit "enum(", Tok.anyPlus, Tok.lit ")"]⟩,
  ⟨"number", [Tok.lit "float"]⟩,
  ⟨"number", [Tok.lit "float unsigned"]⟩,
  ⟨"number", [Tok.lit "float(", Tok.digits, Tok.lit ",", Tok.digits, Tok.lit ")"]⟩,
  ⟨"number", [Tok.lit "int"]⟩,
  ⟨"number", [Tok.lit "int unsigned"]⟩,
  ⟨"any", [Tok.lit "json"]⟩,
  ⟨"any", [Tok.lit "longblob"]⟩,
  ⟨"string", [Tok.lit "longtext"]⟩,
  ⟨"any", [Tok.lit "mediumblob"]⟩,
  ⟨"number", [Tok.lit "mediumint unsigned"]⟩,
  ⟨"string", [Tok.lit "mediumtext"]⟩,
  ⟨"string", [Tok.lit "set(", Tok.anyPlus, Tok.lit ")"]⟩,
  ⟨"number", [Tok.lit "smallint"]⟩,
  ⟨"number", [Tok.lit "smallint unsigned"]⟩,
  ⟨"string", [Tok.lit "text"]⟩,
  ⟨"string", [Tok.lit "time"]⟩,
  ⟨"string", [Tok.lit "time(", Tok.digits, Tok.lit ")"]⟩,
  ⟨"string", [Tok.lit "timestamp"]⟩,
  ⟨"string", [Tok.lit "timestamp(", Tok.digits, Tok.lit ")"]⟩,
  ⟨"number", [Tok.lit "tinyint"]⟩,
  ⟨"number", [Tok.lit "tinyint unsigned"]⟩,
  ⟨"number", [Tok.lit "tinyint(", Tok.digits, Tok.lit ")"]⟩,
  ⟨"any", [Tok.lit "varbinary(", Tok.digits, Tok.lit ")"]⟩,
  ⟨"string", [Tok.lit "varchar(", Tok.digits, Tok.lit ")"]⟩]

/- Row of information_schema.schemata, interface MySqlSchema in
   src/mysql-info.ts. Nullable columns become Option. -/
structure MySqlSchema where
  catalog_name : Option String
  default_character_set_name : String
  default_collation_name : String
  default_encryption : String
  schema_name : Option String
  sql_path : Option Unit
deriving DecidableEq

/- Row of information_schema.tables, interface MySqlTable in src/mysql-info.ts. -/
structure MySqlTable where
  auto_increment : Option Int
  avg_row_length : Option Int
  check_time : Option String
  checksum : Option Int
  create_options : Option String
  create_time : String
  data_free : Option Int
  data_length : Option Int
  engine : Option String
  index_length : Option Int
  max_data_length : Option Int
  row_format : Option String
  table_catalog : Option String
  table_collation : Option String
  table_comment : Option String
  table_name : Option String
  table_rows : Option Int
  table_schema : Option String
  table_type : String
  update_time : Option String
  version : Option Int
deriving DecidableEq

/- Row of information_schema.columns, interface MySqlColumn in
   src/mysql-info.ts. -/
structure MySqlColumn where
  character_maximum_length : Option Int
  character_octet_length : Option Int
  character_set_name : Option String
  collation_name : Option String
  column_comment : String
  column_default : Option String
  column_key : String
  column_name : Option String
  column_type : String
  data_type : Option String
  datetime_precision : Option Int
  extra : Option String
  generation_expression : String
  is_nullable : String
  numeric_precision : Option Int
  numeric_scale : Option Int
  ordinal_position : Int
  privileges : Option String
  srs_id : Option Int
  table_catalog : Option String
  table_name : Option String
  table_schema : Option String
deriving DecidableEq

/-- Modelled from the spec: the function getTsType is imported in src/index.ts
from src/utils.ts, a file that is not among the sources. Per spec section 4.1
the TypeMapper tests the native type description (the column_type field, for
example varchar(255) or bigint unsigned) against each rule of the ordered list
MySqlColumnTypePatterns in list order, case-insensitively and unanchored,
returns the category of the first matching rule, scans no further, and falls
back to the opaque category, rendered as the type name any, when no rule
matches. -/
def getTsType (c : MySqlColumn) : String :=
  match MySqlColumnTypePatterns.find? (fun r => reTest r.re c.column_type) with
  | some r => r.ts
  | none => "any"

/- Test fixture: a column row with neutral values, specialised by record
   updates below. -/
def baseColumn : MySqlColumn where
  character_maximum_length := none
  character_octet_length := none
  character_set_name := none
  collation_name := none
  column_comment := ""
  column_default := none
  column_key := ""
  column_name := some "id"
  column_type := "int"
  data_type := some "int"
  datetime_precision := none
  extra := none
  generation_expression := ""
  is_nullable := "NO"
  numeric_precision := none
  numeric_scale := none
  ordinal_position := 1
  privileges := none
  srs_id := none
  table_catalog := some "def"
  table_name := some "t"
  table_schema := some "s"

example : getTsType { baseColumn with column_type := "bigint unsigned" } = "number" := by decide

example : getTsType { baseColumn with column_type := "varchar(255)" } = "string" := by decide

example : getTsType { baseColumn with column_type := "geometry" } = "any" := by decide

/- JavaScript template interpolation of a possibly null string: null renders as
   the text null. Used where src/index.ts interpolates nullable row fields. -/
def jsInterp : Option String → String
  | none => "null"
  | some s => s

/- JavaScript truthiness of a nullable string: null and the empty string are
   falsy. Used for the guards on schema_name and table_name. -/
def strTruthy : Option String → Bool
  | none => false
  | some s => s != ""

/- Local nullable of _generateColumnDefinition: appended null union marker. -/
def columnNullable (c : MySqlColumn) : String :=
  if c.is_nullable = "YES" then " | null" else ""

/- Local maxChars of _generateColumnDefinition. JavaScript truthiness of a
   nullable number: null and 0 are falsy, so character_maximum_length renders
   only when present and nonzero. -/
def columnMaxChars (c : MySqlColumn) : String :=
  match c.character_maximum_length with
  | some n => if n = 0 then "" else "(" ++ toString n ++ ")"
  | none => ""

/- Local comment of _generateColumnDefinition: column_comment is a non-null
   string in the row type, so the source coalescing is a no-op and the line is
   emitted exactly when the comment is non-empty. -/
def columnCommentPart (c : MySqlColumn) : String :=
  if c.column_comment = "" then "" else "\n   * " ++ c.column_comment

/- The field signature part of the column template:
   name, colon, mapped type, null union marker, semicolon. -/
def columnFieldSig (c : MySqlColumn) : String :=
  jsInterp c.column_name ++ ": " ++ getTsType c ++ columnNullable c ++ ";"

/- MySqlDtoGenerator._generateColumnDefinition. The local readonly is the empty
   string in the source; it is kept as the empty literal before the field
   signature. -/
def _generateColumnDefinition (c : MySqlColumn) : String :=
  "\n  /**" ++ columnCommentPart c
    ++ "\n   * Type: " ++ jsInterp c.data_type ++ columnMaxChars c
    ++ "\n   * Default value: " ++ jsInterp c.column_default
    ++ "\n   */\n  " ++ "" ++ columnFieldSig c

/- Local columnListAll of _generateTableModels: each column paired with its
   rendered definition. -/
def columnListAll (columns : List MySqlColumn) : List (MySqlColumn × String) :=
  columns.map (fun column => (column, _generateColumnDefinition column))

/- Local columnListWritable of _generateTableModels: derived from
   columnListAll by projecting the rendered text, with no filtering predicate. -/
def columnListWritable (columns : List MySqlColumn) : List String :=
  (columnListAll columns).map (fun c => c.2)

/- Local allColumnsWritable of _generateTableModels: compares the lengths of
   columnListAll and columnListWritable. -/
def allColumnsWritable (columns : List MySqlColumn) : Bool :=
  (columnListAll columns).length == (columnListWritable columns).length

/- Local comment of _generateTableModels, from table_comment with nullish
   coalescing to the empty string and a truthiness guard. -/
def tableCommentPart (table : MySqlTable) : String :=
  if table.table_comment.getD "" = "" then "" else "\n * " ++ table.table_comment.getD ""

/- The template of the unified branch of _generateTableModels: one interface
   suffixed DtoWritable holding every rendered column, and an alias type
   suffixed Dto equal to it. -/
def unifiedModelText (table : MySqlTable) (columns : List MySqlColumn) : String :=
  "\n/**\n * Model for read & write operations on table " ++ table.table_name.getD ""
    ++ tableCommentPart table
    ++ "\n */\nexport interface " ++ table.table_name.getD "" ++ "DtoWritable \x7b\n"
    ++ String.intercalate "\n" ((columnListAll columns).map (fun p => p.2))
    ++ "\n\x7d\nexport type " ++ table.table_name.getD "" ++ "Dto = "
    ++ table.table_name.getD "" ++ "DtoWritable;"

/- The template of the split branch of _generateTableModels: a Writable
   interface from columnListWritable and a Dto interface extending it from
   columnListAll. -/
def splitModelText (table : MySqlTable) (columns : List MySqlColumn) : String :=
  "\n/**\n * Model for write operations on table " ++ table.table_name.getD ""
    ++ tableCommentPart table
    ++ "\n */\nexport interface " ++ table.table_name.getD "" ++ "DtoWritable \x7b\n"
    ++ String.intercalate "\n" (columnListWritable columns)
    ++ "\n\x7d\n/**\n * Model for read operations on table " ++ table.table_name.getD ""
    ++ "\n */\nexport interface " ++ table.table_name.getD "" ++ "Dto extends "
    ++ table.table_name.getD "" ++ "DtoWritable \x7b\n"
    ++ String.intercalate "\n" ((columnListAll columns).map (fun p => p.2))
    ++ "\n\x7d"

/- MySqlDtoGenerator._generateTableModels. The source wraps the two branches in
   a run-once do while loop with a break after the first branch; that control
   flow is an if then else. -/
def _generateTableModels (table : MySqlTable) (columns : List MySqlColumn) : String :=
  if allColumnsWritable columns then unifiedModelText table columns
  else splitModelText table columns

/- Result element of MySqlDtoGenerator.generate: interface
   GenerateSchemaOutput in src/index.ts. -/
structure GenerateSchemaOutput where
  schemaName : String
  content : String
deriving DecidableEq

/- MySqlDtoGenerator._generateCommonTypes: the shared types output, with the
   schema name _types and the recursive JSON type body. -/
def _generateCommonTypes : GenerateSchemaOutput :=
  ⟨"_types", "\n// recursive JSON type; you can append nullable or not\nexport type JsonType = string | number | boolean | \x7b [x: string]: JsonType \x7d | Array<JsonType>;\n    "⟩

/- Local columnsOfTable of _generateSchema: the rows of columnRows whose
   table_name equals the table rows name. -/
def columnsOfTable (tableRow : MySqlTable) (columnRows : List MySqlColumn) : List MySqlColumn :=
  columnRows.filter (fun c => c.table_name == tableRow.table_name)

/- MySqlDtoGenerator._generateSchema, as a pure function of the rows the
   catalog reader returned for this schema. The source loop with a continue on
   a falsy table_name is the filter; the module body is one import line and the
   joined table model blocks. -/
def _generateSchema (schemaName : String) (tableRows : List MySqlTable)
    (columnRows : List MySqlColumn) : GenerateSchemaOutput :=
  let modelList := (tableRows.filter (fun t => strTruthy t.table_name)).map
    (fun tableRow => _generateTableModels tableRow (columnsOfTable tableRow columnRows))
  let modelsText := String.intercalate "\n" modelList
  ⟨schemaName, "\nimport \x7b JsonType \x7d from \x27./_types\x27;\n" ++ modelsText ++ "\n"⟩

/- The data the external catalog reader hands to the generator: the schema
   rows, and per schema name the table rows and the column rows. -/
structure Catalog where
  schemata : List MySqlSchema
  tables : String → List MySqlTable
  columns : String → List MySqlColumn

/- Body of the schema loop of MySqlDtoGenerator.generate for one row that
   passed the truthiness guard. -/
def schemaOutput (cat : Catalog) (row : MySqlSchema) : GenerateSchemaOutput :=
  _generateSchema (row.schema_name.getD "") (cat.tables (row.schema_name.getD ""))
    (cat.columns (row.schema_name.getD ""))

/- MySqlDtoGenerator.generate: pushes the common types output first, then one
   output per schema row whose schema_name is truthy, in row order. -/
def generate (cat : Catalog) : List GenerateSchemaOutput :=
  _generateCommonTypes ::
    cat.schemata.filterMap (fun schemaRow =>
      if strTruthy schemaRow.schema_name then some (schemaOutput cat schemaRow) else none)

/- The fixed system schema set excluded by the sqlSelectSchemata query text in
   src/mysql-info.ts. -/
def systemSchemas : List String := ["mysql", "sys", "information_schema", "performance_schema"]

/- Row predicate of the sqlSelectSchemata query in src/mysql-info.ts:
   catalog_name = def and schema_name NOT IN the system set. Under SQL three
   valued logic a NULL schema_name makes NOT IN unknown, so such a row is not
   returned. -/
def schemataRowKept (r : MySqlSchema) : Bool :=
  (r.catalog_name == some "def") &&
    (match r.schema_name with
     | some s => !(systemSchemas.contains s)
     | none => false)

/- Row filtering semantics of the sqlSelectSchemata query. The ORDER BY
   schema_name clause only permutes rows and is not modelled; the theorems
   below about this query concern membership, which a permutation preserves. -/
def sqlSelectSchemataFilter (rows : List MySqlSchema) : List MySqlSchema :=
  rows.filter schemataRowKept

/- Position of the rule with the given regex in the pattern table. -/
def patIdx (p : List Tok) : Nat :=
  MySqlColumnTypePatterns.findIdx (fun r => r.re == p)

/- Test fixture: a table row with neutral values. -/
def baseTable : MySqlTable where
  auto_increment := none
  avg_row_length := none
  check_time := none
  checksum := none
  create_options := none
  create_time := ""
  data_free := none
  data_length := none
  engine := none
  index_length := none
  max_data_length := none
  row_format := none
  table_catalog := some "def"
  table_collation := none
  table_comment := none
  table_name := some "t"
  table_rows := none
  table_schema := some "s"
  table_type := "BASE TABLE"
  update_time := none
  version := none

/- Test fixture: a schema row with neutral values. -/
def baseSchema : MySqlSchema where
  catalog_name := some "def"
  default_character_set_name := ""
  default_collation_name := ""
  default_encryption := "NO"
  schema_name := some "app"
  sql_path := none

example : _generateColumnDefinition baseColumn =
  "\n  /**\n   * Type: int\n   * Default value: null\n   */\n  id: number;" := by decide

def bioColumn : MySqlColumn :=
  { baseColumn with column_type := "varchar(255)", is_nullable := "YES", column_name := some "bio" }

example : columnFieldSig bioColumn = "bio: string | null;" := by decide

/- Counterexample fixtures for the emission order claim: two columns of table
   t whose alphabetical name order inverts their ordinal order. The list is
   sorted by column_name, exactly as the sqlSelectColumns query, which orders
   by table_name and column_name rather than ordinal_position, returns it. -/
def cexColA : MySqlColumn := { baseColumn with column_name := some "a", ordinal_position := 2 }

def cexColB : MySqlColumn := { baseColumn with column_name := some "b", ordinal_position := 1 }

def cexCols : List MySqlColumn := [cexColA, cexColB]

/- Empty catalog reader collaborators for the concrete fixtures. -/
def emptyTables : String → List MySqlTable := fun _ => []

def emptyColumns : String → List MySqlColumn := fun _ => []

/- A schemata row naming the system schema mysql. -/
def mysqlRow : MySqlSchema := { baseSchema with schema_name := some "mysql" }

/- A schema row with a null name and a table row with an empty name. -/
def absentSchemaRow : MySqlSchema := { baseSchema with schema_name := none }

def emptyNameTable : MySqlTable := { baseTable with table_name := some "" }

/- A column whose nullability flag is lower case yes. -/
def lowerYesColumn : MySqlColumn := { baseColumn with is_nullable := "yes" }

/- Statement of the first match contract of the TypeMapper for one column:
   either some rule of MySqlColumnTypePatterns matches the native type
   description, every earlier rule fails, and getTsType returns the matching
   rule category, or no rule matches and getTsType returns the opaque
   category any. -/
def FirstMatchSpec (c : MySqlColumn) : Prop :=
  (∃ i : Fin MySqlColumnTypePatterns.length,
    reTest (MySqlColumnTypePatterns.get i).re c.column_type = true ∧
    (∀ j : Fin MySqlColumnTypePatterns.length, (j : Nat) < (i : Nat) →
      reTest (MySqlColumnTypePatterns.get j).re c.column_type = false) ∧
    getTsType c = (MySqlColumnTypePatterns.get i).ts) ∨
  ((∀ r ∈ MySqlColumnTypePatterns, reTest r.re c.column_type = false) ∧
    getTsType c = "any")

/- Stripping a literal never lengthens the remaining input. -/
lemma stripLit_length : ∀ ps cs rest : List Char,
    stripLit ps cs = some rest → rest.length ≤ cs.length := by
  intro ps
  induction ps with
  | nil =>
    intro cs rest h
    simp [stripLit] at h
    simp [h]
  | cons p ps ih =>
    intro cs rest h
    cases cs with
    | nil => simp [stripLit] at h
    | cons c cs' =>
      by_cases hpc : p = c
      · simp [stripLit, hpc] at h
        exact Nat.le_succ_of_le (ih cs' rest h)
      · simp [stripLit, hpc] at h

/- Above the structural bound, one more unit of fuel changes nothing. -/
lemma matchTokensF_succ : ∀ f ts cs, ts.length + cs.length + 1 ≤ f →
    matchTokensF (f + 1) ts cs = matchTokensF f ts cs := by
  intro f
  induction f using Nat.strong_induction_on with
  | _ f ih =>
    intro ts cs hle
    match f, hle with
    | g + 1, hle =>
      cases ts with
      | nil => rfl
      | cons t ts' =>
        cases t with
        | lit s =>
          show (match stripLit s.toList cs with
                | some rest => matchTokensF (g + 1) ts' rest
                | none => false) =
              (match stripLit s.toList cs with
                | some rest => matchTokensF g ts' rest
                | none => false)
          cases hst : stripLit s.toList cs with
          | none => rfl
          | some rest =>
            have hr := stripLit_length _ _ _ hst
            have hb : ts'.length + rest.length + 1 ≤ g := by
              simp [List.length_cons] at hle
              omega
            exact ih g (Nat.lt_succ_self g) ts' rest hb
        | digits =>
          cases cs with
          | nil => rfl
          | cons c rest =>
            show (c.isDigit &&
                  (matchTokensF (g + 1) ts' rest ||
                    matchTokensF (g + 1) (Tok.digits :: ts') rest)) =
                (c.isDigit &&
                  (matchTokensF g ts' rest || matchTokensF g (Tok.digits :: ts') rest))
            have hb1 : ts'.length + rest.length + 1 ≤ g := by
              simp [List.length_cons] at hle
              omega
            have hb2 : (Tok.digits :: ts').length + rest.length + 1 ≤ g := by
              simp [List.length_cons] at hle ⊢
              omega
            rw [ih g (Nat.lt_succ_self g) ts' rest hb1,
              ih g (Nat.lt_succ_self g) (Tok.digits :: ts') rest hb2]
        | anyPlus =>
          cases cs with
          | nil => rfl
          | cons c rest =>
            show ((c != '\n') &&
                  (matchTokensF (g + 1) ts' rest ||
                    matchTokensF (g + 1) (Tok.anyPlus :: ts') rest)) =
                ((c != '\n') &&
                  (matchTokensF g ts' rest || matchTokensF g (Tok.anyPlus :: ts') rest))
            have hb1 : ts'.length + rest.length + 1 ≤ g := by
              simp [List.length_cons] at hle
              omega
            have hb2 : (Tok.anyPlus :: ts').length + rest.length + 1 ≤ g := by
              simp [List.length_cons] at hle ⊢
              omega
            rw [ih g (Nat.lt_succ_self g) ts' rest hb1,
              ih g (Nat.lt_succ_self g) (Tok.anyPlus :: ts') rest hb2]

/- The fuel chosen in matchTokens is sufficient: any amount of fuel at or above
   the structural bound computes the same answer, so the fuel indexing is
   invisible in the matcher semantics. -/
lemma matchTokensF_stable (f : Nat) (ts : List Tok) (cs : List Char)
    (h : ts.length + cs.length + 1 ≤ f) : matchTokensF f ts cs = matchTokens ts cs := by
  unfold matchTokens
  induction f with
  | zero => omega
  | succ g ih =>
    rcases Nat.lt_or_ge (g + 1) (ts.length + cs.length + 1) with hlt | hge
    · omega
    · rcases Nat.eq_or_lt_of_le hge with heq | hgt
      · rw [heq]
      · have hg : ts.length + cs.length + 1 ≤ g := by omega
        rw [matchTokensF_succ g ts cs hg, ih hg]

/- First match characterisation of List.find?: either some element satisfies
   the predicate and find? returns the first such element, or none does. -/
lemma find_first_spec {α : Type} (p : α → Bool) :
    ∀ l : List α,
      (∃ i : Fin l.length, p (l.get i) = true ∧ l.find? p = some (l.get i) ∧
        ∀ j : Fin l.length, (j : Nat) < (i : Nat) → p (l.get j) = false) ∨
      (l.find? p = none ∧ ∀ x ∈ l, p x = false) := by
  intro l
  induction l with
  | nil =>
    right
    exact ⟨rfl, by intro x hx; cases hx⟩
  | cons a t ih =>
    cases hp : p a with
    | true =>
      left
      refine ⟨⟨0, Nat.succ_pos _⟩, ?_, ?_, ?_⟩
      · simpa using hp
      · simp [List.find?_cons_of_pos _ hp]
      · intro j hj
        exact absurd hj (Nat.not_lt_zero _)
    | false =>
      rcases ih with ⟨i, hpi, hfind, hmin⟩ | ⟨hfind, hall⟩
      · left
        refine ⟨⟨i.1 + 1, Nat.succ_lt_succ i.2⟩, ?_, ?_, ?_⟩
        · exact hpi
        · rw [List.find?_cons_of_neg _ (by simp [hp])]
          exact hfind
        · intro j hj
          match j with
          | ⟨0, h0⟩ => simpa using hp
          | ⟨k + 1, hk⟩ =>
            exact hmin ⟨k, Nat.lt_of_succ_lt_succ hk⟩ (Nat.lt_of_succ_lt_succ hj)
      · right
        refine ⟨?_, ?_⟩
        · rw [List.find?_cons_of_neg _ (by simp [hp])]
          exact hfind
        · intro x hx
          rcases List.mem_cons.mp hx with h | h
          · subst h; exact hp
          · exact hall x h

/-- Claim C1: for every native type description, getTsType returns the category
of the first rule of MySqlColumnTypePatterns whose pattern matches the
description case-insensitively and unanchored, scanning no further after a
match; and when no rule matches it returns the opaque category any rather than
an undefined or empty type name. -/
theorem C1_type_mapper_first_match (c : MySqlColumn) : FirstMatchSpec c := by
  rcases find_first_spec (fun r => reTest r.re c.column_type) MySqlColumnTypePatterns with
    ⟨i, hpi, hfind, hmin⟩ | ⟨hfind, hall⟩
  · left
    exact ⟨i, hpi, hmin, by unfold getTsType; rw [hfind]⟩
  · right
    exact ⟨hall, by unfold getTsType; rw [hfind]⟩

/-- Witness for C1 at a concrete column whose native type is varchar(255). -/
theorem C1_type_mapper_first_match_witness : FirstMatchSpec bioColumn :=
  C1_type_mapper_first_match bioColumn

/-- Claim C2 counterexample: the bare generic int rule sits at position 14 of
MySqlColumnTypePatterns while the specific smallint rule sits at position 23,
and the generic pattern does match the native description smallint, so the
specific numeric subtype pattern smallint does not appear at an earlier list
position than the bare generic pattern int. -/
theorem C2_counterexample :
    patIdx [Tok.lit "int"] = 14 ∧ patIdx [Tok.lit "smallint"] = 23 ∧
    reTest [Tok.lit "int"] "smallint" = true ∧
    ¬ patIdx [Tok.lit "smallint"] < patIdx [Tok.lit "int"] := by decide

/-- Claim C2 amended: only the bigint rule precedes the bare generic int rule;
the smallint, tinyint, mediumint unsigned, float with precision and double
with precision rules all sit after the bare generic rule (int, float, double)
that also matches their native descriptions, but every such earlier generic
rule carries the same category number, so the first match classification of
those descriptions is still number. -/
theorem C2_order_amended :
    patIdx [Tok.lit "bigint"] < patIdx [Tok.lit "int"] ∧
    patIdx [Tok.lit "int"] < patIdx [Tok.lit "smallint"] ∧
    patIdx [Tok.lit "int"] < patIdx [Tok.lit "tinyint"] ∧
    patIdx [Tok.lit "int"] < patIdx [Tok.lit "mediumint unsigned"] ∧
    patIdx [Tok.lit "float"] <
      patIdx [Tok.lit "float(", Tok.digits, Tok.lit ",", Tok.digits, Tok.lit ")"] ∧
    patIdx [Tok.lit "double"] <
      patIdx [Tok.lit "double(", Tok.digits, Tok.lit ",", Tok.digits, Tok.lit ")"] ∧
    getTsType { baseColumn with column_type := "bigint" } = "number" ∧
    getTsType { baseColumn with column_type := "smallint" } = "number" ∧
    getTsType { baseColumn with column_type := "tinyint" } = "number" ∧
    getTsType { baseColumn with column_type := "mediumint unsigned" } = "number" ∧
    getTsType { baseColumn with column_type := "float(10,2)" } = "number" ∧
    getTsType { baseColumn with column_type := "double(10,2)" } = "number" ∧
    getTsType { baseColumn with column_type := "decimal(10,2)" } = "number" := by decide

/- The guard of the unified branch always holds: columnListWritable is a
   projection of columnListAll, so the two lengths agree. -/
lemma allColumnsWritable_true (columns : List MySqlColumn) :
    allColumnsWritable columns = true := by
  simp [allColumnsWritable, columnListWritable]

/- The split branch of _generateTableModels is dead code: the result is always
   the unified template. -/
lemma tableModels_unified (table : MySqlTable) (columns : List MySqlColumn) :
    _generateTableModels table columns = unifiedModelText table columns := by
  simp [_generateTableModels, allColumnsWritable_true]

/- The rendered column list of the unified template is one rendered definition
   per column, in column order. -/
lemma columnListAll_snd (columns : List MySqlColumn) :
    (columnListAll columns).map (fun p => p.2) = columns.map _generateColumnDefinition := by
  simp [columnListAll]

/-- Claim C4: for every table descriptor and column list the writable subset is
identical to the full column set, so allColumnsWritable always holds, the
unified branch is always taken, and the split branch emitting a separate
read-only extension is unreachable: the output is always the unified template,
one interface suffixed DtoWritable holding all fields plus an alias type
suffixed Dto equal to it. -/
theorem C4_unified_branch (table : MySqlTable) (columns : List MySqlColumn) :
    allColumnsWritable columns = true ∧
    _generateTableModels table columns = unifiedModelText table columns :=
  ⟨allColumnsWritable_true columns, tableModels_unified table columns⟩

set_option maxRecDepth 8000 in
/-- Claim C3 counterexample: for the catalog rows above, given to the generator
in the name order produced by sqlSelectColumns, the emitted block for table t
lists field a before field b, so the ordinal positions appear in emission order
2, 1, which is not ascending. -/
theorem C3_counterexample :
    (cexCols.map (fun c => jsInterp c.column_name) = ["a", "b"]) ∧
    ((columnsOfTable baseTable cexCols).map (fun c => c.ordinal_position) = [2, 1]) ∧
    _generateTableModels baseTable cexCols =
      "\n/**\n * Model for read & write operations on table t\n */\nexport interface tDtoWritable \x7b\n\n  /**\n   * Type: int\n   * Default value: null\n   */\n  a: number;\n\n  /**\n   * Type: int\n   * Default value: null\n   */\n  b: number;\n\x7d\nexport type tDto = tDtoWritable;" ∧
    ¬ List.Chain' (· ≤ ·) ([2, 1] : List Int) := by
  refine ⟨by decide, by decide, by decide, ?_⟩
  intro h
  have h2 := (List.chain'_cons.mp h).1
  omega

/-- Claim C3 amended: for every table the emitted type block is built from
exactly one rendered field declaration per column of that table (field count
equals column count), and the fields appear in the order of the column rows the
catalog reader returned, which sqlSelectColumns sorts by table_name and
column_name, not by ordinal_position; ascending ordinal order is not
guaranteed. -/
theorem C3_fields_amended (table : MySqlTable) (columnRows : List MySqlColumn) :
    ((columnsOfTable table columnRows).map _generateColumnDefinition).length =
      (columnsOfTable table columnRows).length ∧
    _generateTableModels table (columnsOfTable table columnRows) =
      "\n/**\n * Model for read & write operations on table " ++ table.table_name.getD ""
        ++ tableCommentPart table
        ++ "\n */\nexport interface " ++ table.table_name.getD "" ++ "DtoWritable \x7b\n"
        ++ String.intercalate "\n"
            ((columnsOfTable table columnRows).map _generateColumnDefinition)
        ++ "\n\x7d\nexport type " ++ table.table_name.getD "" ++ "Dto = "
        ++ table.table_name.getD "" ++ "DtoWritable;" := by
  constructor
  · exact List.length_map _ _
  · rw [tableModels_unified]
    unfold unifiedModelText
    rw [columnListAll_snd]

/-- Claim C5: the rendered field signature is the mapped category followed by
the null union marker exactly when the nullability flag is YES, the bare
mapped category when the flag is NO, and the rendered nullability and the whole
field signature are unchanged under any change of the default value. -/
theorem C5_nullability (c : MySqlColumn) :
    (c.is_nullable = "YES" →
      columnFieldSig c = jsInterp c.column_name ++ ": " ++ getTsType c ++ " | null" ++ ";") ∧
    (c.is_nullable = "NO" →
      columnFieldSig c = jsInterp c.column_name ++ ": " ++ getTsType c ++ ";") ∧
    (∀ d, columnNullable { c with column_default := d } = columnNullable c) ∧
    (∀ d, columnFieldSig { c with column_default := d } = columnFieldSig c) := by
  refine ⟨?_, ?_, fun d => rfl, fun d => rfl⟩
  · intro h
    simp [columnFieldSig, columnNullable, h]
  · intro h
    simp [columnFieldSig, columnNullable, h]

/-- Witness for C5 at two concrete columns, one nullable and one not. -/
theorem C5_nullability_witness :
    columnFieldSig bioColumn =
      jsInterp bioColumn.column_name ++ ": " ++ getTsType bioColumn ++ " | null" ++ ";" ∧
    columnFieldSig baseColumn =
      jsInterp baseColumn.column_name ++ ": " ++ getTsType baseColumn ++ ";" :=
  ⟨(C5_nullability bioColumn).1 rfl, (C5_nullability baseColumn).2.1 rfl⟩

set_option maxRecDepth 8000 in
/-- Claim C6 counterexample: generate performs no system schema filtering of
its own; when the catalog reader returns a row naming the system schema mysql,
the result list contains an output whose schema name is mysql. -/
theorem C6_counterexample :
    "mysql" ∈ systemSchemas ∧
    (generate ⟨[mysqlRow], emptyTables, emptyColumns⟩).map (fun o => o.schemaName) =
      ["_types", "mysql"] := by decide

/-- Claim C6 amended: the exclusion of the four system schemas is enforced
solely by the sqlSelectSchemata catalog query; whenever the schema rows handed
to generate come from that query, no output in the result list carries a
system schema name. The generator itself does not filter, so rows naming
system schemas would pass through (see the counterexample). -/
theorem C6_filter_amended (raw : List MySqlSchema) (tables : String → List MySqlTable)
    (columns : String → List MySqlColumn) (out : GenerateSchemaOutput)
    (hmem : out ∈ generate ⟨sqlSelectSchemataFilter raw, tables, columns⟩) :
    out.schemaName ∉ systemSchemas := by
  rcases List.mem_cons.mp hmem with h | h
  · subst h; decide
  · rcases List.mem_filterMap.mp h with ⟨row, hrow, hf⟩
    by_cases hg : strTruthy row.schema_name
    · simp only [hg, if_true] at hf
      simp only [sqlSelectSchemataFilter] at hrow
      have hkept := (List.mem_filter.mp hrow).2
      cases hsn : row.schema_name with
      | none => simp [schemataRowKept, hsn] at hkept
      | some s =>
        have hns : ¬ s ∈ systemSchemas := by
          simp [schemataRowKept, hsn] at hkept
          exact hkept.2
        have hout := Option.some.inj hf
        have hname : out.schemaName = s := by
          rw [← hout]
          simp [schemaOutput, _generateSchema, hsn]
        rw [hname]
        exact hns
    · simp [hg] at hf

/-- Witness for C6 amended at the empty catalog: the only output is the shared
types output and its name is not a system schema name. -/
theorem C6_filter_amended_witness : _generateCommonTypes.schemaName ∉ systemSchemas :=
  C6_filter_amended [] emptyTables emptyColumns _generateCommonTypes (by decide)

/- A guarded filterMap is a filter followed by a map. -/
lemma filterMap_guard {α β : Type} (p : α → Bool) (f : α → β) (l : List α) :
    l.filterMap (fun a => if p a then some (f a) else none) = (l.filter p).map f := by
  induction l with
  | nil => rfl
  | cons a t ih =>
    by_cases h : p a
    · simp [List.filterMap_cons, List.filter_cons, h, ih]
    · simp [List.filterMap_cons, List.filter_cons, h, ih]

/-- Claim C7: for every catalog content, the result of generate is the shared
types output, synthesized exactly once with the fixed name given by
_generateCommonTypes and tied to no schema row, followed by exactly one output
per schema row with a truthy name, in the order the rows were listed by the
catalog reader. -/
theorem C7_output_shape (cat : Catalog) :
    generate cat = _generateCommonTypes ::
      (cat.schemata.filter (fun r => strTruthy r.schema_name)).map (schemaOutput cat) ∧
    _generateCommonTypes.schemaName = "_types" := by
  refine ⟨?_, rfl⟩
  unfold generate
  rw [filterMap_guard (fun r => strTruthy r.schema_name) (schemaOutput cat)]

/-- Claim C8: the rendered field declaration carries a documentation block that
is always emitted, holding in order the comment line exactly when the comment
is non-empty, the native type description with its length qualifier, which is
absent when no length is present, and a default value line rendered even when
the default is null, where it shows the explicit text null. The empty string
appended before the field signature is the readonly placeholder of the source
template. -/
theorem C8_doc_block (c : MySqlColumn) :
    _generateColumnDefinition c =
      "\n  /**" ++ columnCommentPart c
        ++ "\n   * Type: " ++ jsInterp c.data_type ++ columnMaxChars c
        ++ "\n   * Default value: " ++ jsInterp c.column_default
        ++ "\n   */\n  " ++ "" ++ columnFieldSig c ∧
    (c.column_comment = "" → columnCommentPart c = "") ∧
    (c.column_comment ≠ "" → columnCommentPart c = "\n   * " ++ c.column_comment) ∧
    (c.character_maximum_length = none → columnMaxChars c = "") ∧
    (columnMaxChars c ≠ "" → c.character_maximum_length ≠ none) ∧
    (c.column_default = none → jsInterp c.column_default = "null") := by
  refine ⟨rfl, ?_, ?_, ?_, ?_, ?_⟩
  · intro h; simp [columnCommentPart, h]
  · intro h; simp [columnCommentPart, h]
  · intro h; simp [columnMaxChars, h]
  · intro hne hnone
    simp [columnMaxChars, hnone] at hne
  · intro h; simp [jsInterp, h]

/-- Witness for C8 at a concrete column with an empty comment and a null
default: the comment line is omitted while the default line text is null. -/
theorem C8_doc_block_witness :
    columnCommentPart baseColumn = "" ∧ jsInterp baseColumn.column_default = "null" :=
  ⟨(C8_doc_block baseColumn).2.1 rfl, (C8_doc_block baseColumn).2.2.2.2.2 rfl⟩

/-- Claim C9: a schema row with an absent name and a table row with an absent
name are skipped without error: removing such a row from the catalog rows
leaves the result of generate, respectively of _generateSchema, unchanged, and
generation continues with the remaining rows. -/
theorem C9_skip_absent_names
    (tables : String → List MySqlTable) (columns : String → List MySqlColumn)
    (pre post : List MySqlSchema) (bad : MySqlSchema)
    (hbad : strTruthy bad.schema_name = false)
    (name : String) (preT postT : List MySqlTable) (badT : MySqlTable)
    (hbadT : strTruthy badT.table_name = false) (cols : List MySqlColumn) :
    generate ⟨pre ++ bad :: post, tables, columns⟩ =
      generate ⟨pre ++ post, tables, columns⟩ ∧
    _generateSchema name (preT ++ badT :: postT) cols =
      _generateSchema name (preT ++ postT) cols := by
  constructor
  · simp [generate, schemaOutput, List.filterMap_append, List.filterMap_cons, hbad]
  · simp [_generateSchema, List.filter_append, List.filter_cons, hbadT]

/-- Witness for C9 at concrete rows: a schemata row with a null name and a
table row with an empty name are both dropped without changing the result. -/
theorem C9_skip_absent_names_witness :
    generate ⟨[absentSchemaRow], emptyTables, emptyColumns⟩ =
      generate ⟨[], emptyTables, emptyColumns⟩ ∧
    _generateSchema "s" [emptyNameTable] [] = _generateSchema "s" [] [] := by
  have h := C9_skip_absent_names emptyTables emptyColumns [] [] absentSchemaRow (by decide)
    "s" [] [] emptyNameTable (by decide) []
  simpa using h

/-- Claim C10: the null union marker is appended exactly when is_nullable is
the string YES, compared case-sensitively; a column whose flag is any other
value, such as yes, no or the empty string, renders identically to one whose
flag is NO. -/
theorem C10_nullable_exact_yes (c : MySqlColumn) :
    (columnNullable c = " | null" ↔ c.is_nullable = "YES") ∧
    (c.is_nullable ≠ "YES" →
      _generateColumnDefinition c = _generateColumnDefinition { c with is_nullable := "NO" }) := by
  constructor
  · constructor
    · intro h
      by_contra hne
      simp [columnNullable, hne] at h
    · intro h
      simp [columnNullable, h]
  · intro h
    simp [_generateColumnDefinition, columnFieldSig, columnNullable, columnCommentPart,
      columnMaxChars, jsInterp, getTsType, h]

/-- Witness for C10 at a concrete column whose flag is the lower case string
yes: it renders identically to the same column with flag NO. -/
theorem C10_nullable_exact_yes_witness :
    _generateColumnDefinition lowerYesColumn =
      _generateColumnDefinition { lowerYesColumn with is_nullable := "NO" } :=
  (C10_nullable_exact_yes lowerYesColumn).2 (by decide)

